import Mathlib

/-!
Shallow embedding of the orchids-cloner AI HTML generation pipeline
(src/backend/app/ai_generator.py) and proofs of its specification claims.

Python strings are modelled as Lean `String`; Python dicts that the code
accesses with `.get` are modelled as structures with explicit fields
(`Option` where the code distinguishes a missing key from an empty value)
or as association lists `List (String × String)` preserving insertion
order, matching CPython dict iteration order.  Python string slicing
`s[:n]` is code-point truncation, modelled by `List.take` on `String.data`.
-/

namespace Orchids

/-- Model of Python `str.lower()` restricted to the ASCII range, which is the
only range exercised by CSS property names and selectors in this pipeline. -/
def pyLower (s : String) : String := ⟨s.data.map Char.toLower⟩

/-- Model of the Python substring test `needle in haystack` (case sensitive). -/
def strContainsSub (haystack needle : String) : Bool :=
  decide (needle.data <:+: haystack.data)

/-- Model of Python slicing `s[:n]`. -/
def pyTake (n : Nat) (s : String) : String := ⟨s.data.take n⟩

/-- Accumulator step for `digitRuns`: scans characters, building the current
maximal run of decimal digits as a `Nat` (mirroring `int` conversion of each
match of the regex `\d+` in `re.findall`). -/
def digitRunsGo : List Char → Option Nat → List Nat
  | [], none => []
  | [], some n => [n]
  | c :: rest, none =>
      if c.isDigit then digitRunsGo rest (some (c.toNat - 48))
      else digitRunsGo rest none
  | c :: rest, some n =>
      if c.isDigit then digitRunsGo rest (some (n * 10 + (c.toNat - 48)))
      else n :: digitRunsGo rest none

/-- Model of `[int(x) for x in re.findall(r"\d+", s)]`: the numeric values of
the maximal decimal-digit runs of `s`, in order. -/
def digitRuns (s : String) : List Nat := digitRunsGo s.data none

/-- One per-selector computed-style record, as consumed by the generator:
`label`, `selector` and the ordered property bag `styles`
(`style_data.get('styles', {})` etc.; a missing key behaves exactly like the
empty default, so plain fields suffice). -/
structure StyleRecord where
  label : String
  selector : String
  styles : List (String × String)
deriving DecidableEq, Repr

/-- Embeds `_is_background_color` (src/backend/app/ai_generator.py:766):
requires an `rgb` substring and at least three digit runs, then tests whether
the mean of the first three exceeds 200.  The Python comparison
`sum(...)/3 > 200` on integers is exactly `sum > 600`. -/
def is_background_color (color : String) : Bool :=
  if color = "" ∨ strContainsSub color "rgb" = false then false
  else
    let rgb_values := digitRuns color
    if rgb_values.length ≥ 3 then decide ((rgb_values.take 3).sum > 600)
    else false

/-- Embeds `_is_text_color` (src/backend/app/ai_generator.py:778): mean of the
first three digit runs below 100, i.e. `sum < 300`. -/
def is_text_color (color : String) : Bool :=
  if color = "" ∨ strContainsSub color "rgb" = false then false
  else
    let rgb_values := digitRuns color
    if rgb_values.length ≥ 3 then decide ((rgb_values.take 3).sum < 300)
    else false

/-- Embeds the `color_usage` dict update `color_usage[value] += 1` (with
implicit insertion of new keys at the end, as in CPython dicts). -/
def bumpColor : List (String × Nat) → String → List (String × Nat)
  | [], v => [(v, 1)]
  | (k, c) :: rest, v =>
      if k = v then (k, c + 1) :: rest else (k, c) :: bumpColor rest v

/-- One iteration of the inner loop of `intelligent_color_extraction`:
count `value` when the property name contains `color` (case insensitive)
and the value is truthy (non-empty). -/
def recordColorStep (m : List (String × Nat)) (pv : String × String) :
    List (String × Nat) :=
  if strContainsSub (pyLower pv.1) "color" = true ∧ pv.2 ≠ "" then bumpColor m pv.2
  else m

/-- Embeds the counting loops of `intelligent_color_extraction`
(src/backend/app/ai_generator.py:742): a usage count per distinct raw color
value string, in first-seen order. -/
def color_usage (computed_styles : List StyleRecord) : List (String × Nat) :=
  computed_styles.foldl (fun m sd => sd.styles.foldl recordColorStep m) []

/-- Embeds `sorted(color_usage.items(), key=lambda x: x[1], reverse=True)`:
a stable sort by usage count descending (Python `sorted` is stable, and
`reverse=True` keeps ties in original order). -/
def sorted_colors (computed_styles : List StyleRecord) : List (String × Nat) :=
  List.insertionSort (fun a b => b.2 ≤ a.2) (color_usage computed_styles)

/-- The top-10-by-frequency window `sorted_colors[:10]` that the
classification loop ranges over. -/
def topColors (computed_styles : List StyleRecord) : List (String × Nat) :=
  (sorted_colors computed_styles).take 10

/-- The five color buckets returned by `intelligent_color_extraction`. -/
structure ColorBuckets where
  primary : List String
  secondary : List String
  text : List String
  background : List String
  accent : List String
deriving DecidableEq, Repr

/-- One iteration of the classification loop of
`intelligent_color_extraction` (src/backend/app/ai_generator.py:754). -/
def classifyStep (colors : ColorBuckets) (cu : String × Nat) : ColorBuckets :=
  if is_background_color cu.1 then
    { colors with background := colors.background ++ [cu.1] }
  else if is_text_color cu.1 then
    { colors with text := colors.text ++ [cu.1] }
  else if cu.2 > 3 then
    { colors with primary := colors.primary ++ [cu.1] }
  else
    { colors with accent := colors.accent ++ [cu.1] }

/-- Embeds `intelligent_color_extraction` (src/backend/app/ai_generator.py:730). -/
def intelligent_color_extraction (computed_styles : List StyleRecord) :
    ColorBuckets :=
  (topColors computed_styles).foldl classifyStep
    { primary := [], secondary := [], text := [], background := [], accent := [] }

/-! Analysis-side vocabulary for the classification rule. -/

/-- Names of the five buckets, for stating disjointness. -/
inductive Bucket
  | primary | secondary | text | background | accent
deriving DecidableEq, Repr

/-- The bucket the classification loop assigns to a single top-10 entry. -/
def classifyOne (color : String) (usage : Nat) : Bucket :=
  if is_background_color color then .background
  else if is_text_color color then .text
  else if usage > 3 then .primary
  else .accent

/-- Project a bucket's member list out of the result record. -/
def bucketGet (colors : ColorBuckets) : Bucket → List String
  | .primary => colors.primary
  | .secondary => colors.secondary
  | .text => colors.text
  | .background => colors.background
  | .accent => colors.accent

/-- The sum of the first three parsed RGB components, when the value has an
`rgb` substring and at least three digit runs; `none` otherwise.  The mean
`avg = sum/3` compared against 200 and 100 corresponds to `sum` against
600 and 300. -/
def rgbSum3 (color : String) : Option Nat :=
  if strContainsSub color "rgb" = true ∧ (digitRuns color).length ≥ 3 then
    some ((digitRuns color).take 3).sum
  else none

/-- Number of buckets of the extraction result containing a given value. -/
def bucketCount (colors : ColorBuckets) (v : String) : Nat :=
  (if v ∈ colors.primary then 1 else 0) +
  (if v ∈ colors.secondary then 1 else 0) +
  (if v ∈ colors.text then 1 else 0) +
  (if v ∈ colors.background then 1 else 0) +
  (if v ∈ colors.accent then 1 else 0)

/-! Data model for the rest of the pipeline. -/

/-- One navigation element record from semantic analysis; its payload is an
opaque attribute bag, stored but never interpolated by the generator. -/
abbrev NavElement := List (String × String)

/-- Model of `scraped_data['semantic_analysis']`. -/
structure SemanticAnalysis where
  sections : List String
  navigation_elements : List NavElement
deriving DecidableEq, Repr

/-- Model of `scraped_data['text_content']`.  `title` is an `Option` because
the code reads it with default `'Cloned Website'`, which differs from the
empty string; every other field is read with an empty default, so a missing
key and an empty value behave identically. Each heading dict is modelled by
its optional `text` entry (read with default `Section {i+1}`). -/
structure TextContent where
  title : Option String
  header : String
  main : String
  footer : String
  headings : List (Option String)
  paragraphs : List String
deriving DecidableEq, Repr

/-- Model of the `scraped_data` dict as consumed by the generator.
`responsive_info` is the optional breakpoint list (default `[768, 1024]`). -/
structure ScrapedData where
  semantic_analysis : SemanticAnalysis
  computed_styles : List StyleRecord
  text_content : TextContent
  responsive_info : Option (List Nat)
deriving DecidableEq, Repr

/-- Model of the `design_tokens` dict: the three color buckets read by
`_generate_css_variables` plus the optional primary font. -/
structure DesignTokens where
  colors_primary : List String
  colors_text : List String
  colors_background : List String
  primary_font : Option String
deriving DecidableEq, Repr

/-- Model of the `layout_analysis` dict (`layout_type`, default `'block'`). -/
structure LayoutAnalysis where
  layout_type : Option String
deriving DecidableEq, Repr

/-- The four component types created by `_analyze_page_components`. -/
inductive ComponentType
  | navigation | header | main_content | footer
deriving DecidableEq, Repr

/-- A component record.  The Python component dicts carry different keys per
type; absent keys are read downstream with empty defaults, so a single
structure with empty defaults is a faithful model. -/
structure Component where
  type : ComponentType
  styles : List (String × String)
  content : String
  data : NavElement
  headings : List (Option String)
  paragraphs : List String
  priority : Nat
deriving DecidableEq, Repr

/-- Model of Python `dict.update` for one key/value pair on an
insertion-ordered association list: an existing key keeps its position and
gets the new value; a new key is appended. -/
def dictUpdateOne (m : List (String × String)) (kv : String × String) :
    List (String × String) :=
  match m with
  | [] => [kv]
  | (k, v) :: rest =>
      if k = kv.1 then (k, kv.2) :: rest else (k, v) :: dictUpdateOne rest kv

/-- Model of `d.update(new)`. -/
def dictUpdate (m new : List (String × String)) : List (String × String) :=
  new.foldl dictUpdateOne m

/-- Model of `d.get(k, dflt)` on a style bag. -/
def dictGet (m : List (String × String)) (k dflt : String) : String :=
  match m.find? (fun kv => kv.1 = k) with
  | some kv => kv.2
  | none => dflt

/-- Merge loop shared by the extractors: fold over all style records,
updating the accumulator with the styles of each record matching `pred`. -/
def mergeStylesWhere (pred : StyleRecord → Bool)
    (records : List StyleRecord) : List (String × String) :=
  records.foldl (fun acc r => if pred r then dictUpdate acc r.styles else acc) []

/-- Embeds `_extract_navigation_component` (src/backend/app/ai_generator.py:67). -/
def extract_navigation_component (sd : ScrapedData) : Option Component :=
  match sd.semantic_analysis.navigation_elements with
  | [] => none
  | e :: _ =>
      some
        { type := .navigation
          styles := mergeStylesWhere
            (fun r => strContainsSub (pyLower r.selector) "nav") sd.computed_styles
          content := ""
          data := e
          headings := []
          paragraphs := []
          priority := 10 }

/-- Embeds `_extract_header_component` (src/backend/app/ai_generator.py:87).
The Python function always returns a (truthy, non-empty) dict. -/
def extract_header_component (sd : ScrapedData) : Component :=
  { type := .header
    styles := mergeStylesWhere
      (fun r => pyLower r.label = "header" ∨ pyLower r.label = "main heading")
      sd.computed_styles
    content := sd.text_content.header
    data := []
    headings := []
    paragraphs := []
    priority := 9 }

/-- Embeds `_extract_content_sections` (src/backend/app/ai_generator.py:105):
one `main_content` component exactly when the `main` text is truthy. -/
def extract_content_sections (sd : ScrapedData) : List Component :=
  let tc := sd.text_content
  if tc.main = "" then []
  else
    [{ type := .main_content
       styles := mergeStylesWhere
         (fun r => pyLower r.label = "main content" ∨ pyLower r.label = "paragraph")
         sd.computed_styles
       content := tc.main
       data := []
       headings := tc.headings
       paragraphs := tc.paragraphs
       priority := 8 }]

/-- Embeds `_extract_footer_component` (src/backend/app/ai_generator.py:131). -/
def extract_footer_component (sd : ScrapedData) : Component :=
  { type := .footer
    styles := mergeStylesWhere
      (fun r => strContainsSub (pyLower r.selector) "footer") sd.computed_styles
    content := sd.text_content.footer
    data := []
    headings := []
    paragraphs := []
    priority := 5 }

/-- Embeds `_analyze_page_components` (src/backend/app/ai_generator.py:40),
appending to the instance state `self.components`. -/
def analyze_page_components (sd : ScrapedData) (components : List Component) :
    List Component :=
  let c1 :=
    if "nav" ∈ sd.semantic_analysis.sections then
      match extract_navigation_component sd with
      | some nc => components ++ [nc]
      | none => components
    else components
  let c2 :=
    if "header" ∈ sd.semantic_analysis.sections then
      c1 ++ [extract_header_component sd]
    else c1
  let c3 := c2 ++ extract_content_sections sd
  if "footer" ∈ sd.semantic_analysis.sections then
    c3 ++ [extract_footer_component sd]
  else c3

/-! CSS synthesis. -/

/-- Embeds `_generate_reset_css` (src/backend/app/ai_generator.py:173).
Literal braces of the source are written with their character codes. -/
def generate_reset_css : String :=
  "/* CSS Reset */\n* \x7b\n    margin: 0;\n    padding: 0;\n    box-sizing: border-box;\n\x7d\n\nbody \x7b\n    line-height: 1.6;\n    -webkit-font-smoothing: antialiased;\n    -moz-osx-font-smoothing: grayscale;\n\x7d\n\nimg \x7b\n    max-width: 100%;\n    height: auto;\n\x7d\n\na \x7b\n    text-decoration: none;\n    color: inherit;\n\x7d\n\nbutton \x7b\n    border: none;\n    background: none;\n    cursor: pointer;\n\x7d"

/-- Embeds `_generate_css_variables` (src/backend/app/ai_generator.py:204). -/
def generate_css_variables (dt : DesignTokens) : String :=
  let primary_color :=
    match dt.colors_primary with
    | [] => "#007bff"
    | c :: _ => c
  let text_color :=
    match dt.colors_text with
    | [] => "#333333"
    | c :: _ => c
  let bg_color :=
    match dt.colors_background with
    | [] => "#ffffff"
    | c :: _ => c
  let primary_font := dt.primary_font.getD "Arial, sans-serif"
  "/* CSS Variables */\n:root \x7b\n    --color-primary: " ++ primary_color ++
  ";\n    --color-secondary: #6c757d;\n    --color-text: " ++ text_color ++
  ";\n    --color-text-light: #666666;\n    --color-background: " ++ bg_color ++
  ";\n    --color-background-light: #f8f9fa;\n    --color-border: #e0e0e0;\n\n    --font-primary: " ++
  primary_font ++
  ";\n    --font-size-base: 16px;\n    --font-size-sm: 14px;\n    --font-size-lg: 18px;\n    --font-size-xl: 24px;\n    --font-size-xxl: 32px;\n\n    --spacing-xs: 0.25rem;\n    --spacing-sm: 0.5rem;\n    --spacing-md: 1rem;\n    --spacing-lg: 1.5rem;\n    --spacing-xl: 2rem;\n    --spacing-xxl: 3rem;\n\n    --border-radius: 0.375rem;\n    --box-shadow: 0 1px 3px rgba(0, 0, 0, 0.1);\n    --transition: all 0.3s ease;\n\x7d"

/-- Embeds `_generate_navigation_css` (src/backend/app/ai_generator.py:262). -/
def generate_navigation_css (styles : List (String × String)) : String :=
  let bg_color := dictGet styles "backgroundColor" "var(--color-background-light)"
  "/* Navigation */\n.navbar \x7b\n    background-color: " ++ bg_color ++
  ";\n    padding: var(--spacing-md) 0;\n    border-bottom: 1px solid var(--color-border);\n    position: sticky;\n    top: 0;\n    z-index: 1000;\n\x7d\n\n.navbar .container \x7b\n    display: flex;\n    justify-content: space-between;\n    align-items: center;\n\x7d\n\n.navbar-brand \x7b\n    font-size: var(--font-size-xl);\n    font-weight: bold;\n    color: var(--color-primary);\n\x7d\n\n.navbar-nav \x7b\n    display: flex;\n    list-style: none;\n    gap: var(--spacing-lg);\n\x7d\n\n.navbar-nav a \x7b\n    color: var(--color-text);\n    font-weight: 500;\n    transition: var(--transition);\n    padding: var(--spacing-sm) var(--spacing-md);\n    border-radius: var(--border-radius);\n\x7d\n\n.navbar-nav a:hover \x7b\n    color: var(--color-primary);\n    background-color: rgba(0, 123, 255, 0.1);\n\x7d"

/-- Embeds `_generate_header_css` (src/backend/app/ai_generator.py:307). -/
def generate_header_css (styles : List (String × String)) : String :=
  let bg_color := dictGet styles "backgroundColor" "var(--color-primary)"
  let color := dictGet styles "color" "white"
  "/* Header */\n.hero \x7b\n    background: " ++ bg_color ++ ";\n    color: " ++
  color ++
  ";\n    padding: var(--spacing-xxl) 0;\n    text-align: center;\n\x7d\n\n.hero h1 \x7b\n    font-size: var(--font-size-xxl);\n    font-weight: bold;\n    margin-bottom: var(--spacing-md);\n    line-height: 1.2;\n\x7d\n\n.hero p \x7b\n    font-size: var(--font-size-lg);\n    opacity: 0.9;\n    max-width: 600px;\n    margin: 0 auto var(--spacing-lg);\n\x7d\n\n.hero .btn \x7b\n    display: inline-block;\n    background: rgba(255, 255, 255, 0.2);\n    color: white;\n    padding: var(--spacing-md) var(--spacing-xl);\n    border-radius: var(--border-radius);\n    font-weight: 600;\n    transition: var(--transition);\n    border: 2px solid rgba(255, 255, 255, 0.3);\n\x7d\n\n.hero .btn:hover \x7b\n    background: rgba(255, 255, 255, 0.3);\n    transform: translateY(-2px);\n\x7d"

/-- Embeds `_generate_main_content_css` (src/backend/app/ai_generator.py:350);
the `styles` argument is accepted and ignored, as in the source. -/
def generate_main_content_css (styles : List (String × String)) : String :=
  "/* Main Content */\n.main-content \x7b\n    padding: var(--spacing-xxl) 0;\n\x7d\n\n.content-section \x7b\n    margin-bottom: var(--spacing-xxl);\n\x7d\n\n.content-section h2 \x7b\n    font-size: var(--font-size-xl);\n    margin-bottom: var(--spacing-lg);\n    color: var(--color-text);\n\x7d\n\n.content-section p \x7b\n    font-size: var(--font-size-base);\n    line-height: 1.7;\n    margin-bottom: var(--spacing-md);\n    color: var(--color-text-light);\n\x7d\n\n.card \x7b\n    background: var(--color-background);\n    border-radius: var(--border-radius);\n    padding: var(--spacing-xl);\n    box-shadow: var(--box-shadow);\n    margin-bottom: var(--spacing-lg);\n\x7d\n\n.btn \x7b\n    display: inline-block;\n    background: var(--color-primary);\n    color: white;\n    padding: var(--spacing-md) var(--spacing-lg);\n    border-radius: var(--border-radius);\n    font-weight: 600;\n    transition: var(--transition);\n    text-align: center;\n\x7d\n\n.btn:hover \x7b\n    background: var(--color-secondary);\n    transform: translateY(-2px);\n\x7d"

/-- Embeds `_generate_footer_css` (src/backend/app/ai_generator.py:398). -/
def generate_footer_css (styles : List (String × String)) : String :=
  let bg_color := dictGet styles "backgroundColor" "var(--color-background-light)"
  "/* Footer */\n.footer \x7b\n    background: " ++ bg_color ++
  ";\n    padding: var(--spacing-xxl) 0;\n    border-top: 1px solid var(--color-border);\n    margin-top: var(--spacing-xxl);\n\x7d\n\n.footer p \x7b\n    color: var(--color-text-light);\n    text-align: center;\n    font-size: var(--font-size-sm);\n\x7d"

/-- Embeds `_generate_component_css` (src/backend/app/ai_generator.py:246). -/
def generate_component_css (c : Component) : String :=
  match c.type with
  | .navigation => generate_navigation_css c.styles
  | .header => generate_header_css c.styles
  | .main_content => generate_main_content_css c.styles
  | .footer => generate_footer_css c.styles

/-- Embeds `_generate_layout_css` (src/backend/app/ai_generator.py:416). -/
def generate_layout_css (la : LayoutAnalysis) : String :=
  let layout_type := la.layout_type.getD "block"
  let layout_css :=
    "/* Layout */\n.container \x7b\n    max-width: 1200px;\n    margin: 0 auto;\n    padding: 0 var(--spacing-md);\n\x7d\n\n.container-fluid \x7b\n    width: 100%;\n    padding: 0 var(--spacing-md);\n\x7d\n\n.section \x7b\n    padding: var(--spacing-xxl) 0;\n\x7d"
  if layout_type = "grid" then
    layout_css ++
      "\n.grid \x7b\n    display: grid;\n    gap: var(--spacing-lg);\n    grid-template-columns: repeat(auto-fit, minmax(300px, 1fr));\n\x7d"
  else if layout_type = "flexbox" then
    layout_css ++
      "\n.flex \x7b\n    display: flex;\n    gap: var(--spacing-lg);\n\x7d\n\n.flex-wrap \x7b\n    flex-wrap: wrap;\n\x7d\n\n.flex-center \x7b\n    justify-content: center;\n    align-items: center;\n\x7d"
  else layout_css

/-- Embeds `_generate_responsive_css` (src/backend/app/ai_generator.py:461).
The source reads the detected breakpoints into a local variable and never
uses it; the emitted block is a fixed constant with literal 768px/480px
media-query thresholds. -/
def generate_responsive_css (sd : ScrapedData) : String :=
  let _breakpoints := sd.responsive_info.getD [768, 1024]
  "/* Responsive Design */\n@media (max-width: 768px) \x7b\n    .container \x7b\n        padding: 0 var(--spacing-sm);\n    \x7d\n\n    .hero h1 \x7b\n        font-size: var(--font-size-xl);\n    \x7d\n\n    .navbar .container \x7b\n        flex-direction: column;\n        gap: var(--spacing-md);\n    \x7d\n\n    .navbar-nav \x7b\n        flex-direction: column;\n        width: 100%;\n        text-align: center;\n    \x7d\n\n    .grid \x7b\n        grid-template-columns: 1fr;\n    \x7d\n\n    .flex \x7b\n        flex-direction: column;\n    \x7d\n\x7d\n\n@media (max-width: 480px) \x7b\n    .hero \x7b\n        padding: var(--spacing-xl) 0;\n    \x7d\n\n    .hero h1 \x7b\n        font-size: var(--font-size-lg);\n    \x7d\n\n    .card \x7b\n        padding: var(--spacing-md);\n    \x7d\n\x7d"

/-- Embeds `_generate_enhanced_css` (src/backend/app/ai_generator.py:149):
reset, variables, per-component blocks (appended only when non-empty),
layout, responsive, joined by blank lines after filtering empties. -/
def generate_enhanced_css (sd : ScrapedData) (dt : DesignTokens)
    (la : LayoutAnalysis) (components : List Component) : String :=
  let parts := [generate_reset_css, generate_css_variables dt]
  let parts := components.foldl
    (fun acc c =>
      let component_css := generate_component_css c
      if component_css ≠ "" then acc ++ [component_css] else acc)
    parts
  let parts := parts ++ [generate_layout_css la, generate_responsive_css sd]
  String.intercalate "\n\n" (parts.filter (fun p => p ≠ ""))

/-! HTML synthesis. -/

/-- Model of Python `content.split(sep)` for the single-character separator
used by `_generate_header_html`: fold from the right, starting a new group at
each separator; the empty string yields one empty group, as in Python. -/
def splitOnCharList (sep : Char) (cs : List Char) : List (List Char) :=
  cs.foldr
    (fun c acc =>
      match acc with
      | [] => [[c]]
      | g :: rest => if c = sep then [] :: (g :: rest) else (c :: g) :: rest)
    [[]]

/-- String-level wrapper for `splitOnCharList`. -/
def pySplitNl (s : String) : List String :=
  (splitOnCharList '\n' s.data).map (fun cs => ⟨cs⟩)

/-- Model of Python `content.split('\n\n')`: leftmost, non-overlapping
two-newline separators; accumulates the current group in reverse. -/
def splitDoubleNlGo : List Char → List Char → List (List Char)
  | [], acc => [acc.reverse]
  | '\n' :: '\n' :: rest, acc => acc.reverse :: splitDoubleNlGo rest []
  | c :: rest, acc => splitDoubleNlGo rest (c :: acc)

/-- String-level wrapper for `splitDoubleNlGo`. -/
def pySplitDoubleNl (s : String) : List String :=
  (splitDoubleNlGo s.data []).map (fun cs => ⟨cs⟩)

/-- ASCII model of Python `str.strip()` whitespace (the generator only feeds
it text already produced by the scraper; the Unicode-only whitespace code
points are not distinguished by any claim). -/
def pyIsSpace (c : Char) : Bool :=
  c = ' ' ∨ c = '\t' ∨ c = '\n' ∨ c = '\r' ∨ c = '\x0b' ∨ c = '\x0c'

/-- Model of Python `s.strip()`. -/
def pyStrip (s : String) : String :=
  ⟨((s.data.dropWhile pyIsSpace).reverse.dropWhile pyIsSpace).reverse⟩

/-- Embeds `_generate_navigation_html` (src/backend/app/ai_generator.py:540):
a fixed fragment; the component argument is never interpolated. -/
def generate_navigation_html (c : Component) : String :=
  "    <nav class=\"navbar\">\n        <div class=\"container\">\n            <div class=\"navbar-brand\">Brand</div>\n            <ul class=\"navbar-nav\">\n                <li><a href=\"#home\">Home</a></li>\n                <li><a href=\"#about\">About</a></li>\n                <li><a href=\"#services\">Services</a></li>\n                <li><a href=\"#contact\">Contact</a></li>\n            </ul>\n        </div>\n    </nav>"

/-- The header title local: `content.split('\n')[0] if content else 'Welcome'`. -/
def header_title (content : String) : String :=
  if content = "" then "Welcome" else (pySplitNl content).headD ""

/-- The header subtitle local:
`content.split('\n')[1] if '\n' in content else 'Discover amazing content'`. -/
def header_subtitle (content : String) : String :=
  if '\n' ∈ content.data then (pySplitNl content).getD 1 ""
  else "Discover amazing content"

/-- The interpolated header title slot: `{title[:50] or 'Welcome'}`. -/
def header_title_slot (content : String) : String :=
  let t := pyTake 50 (header_title content)
  if t = "" then "Welcome" else t

/-- The interpolated header subtitle slot:
`{subtitle[:100] or 'Discover amazing content and services'}`. -/
def header_subtitle_slot (content : String) : String :=
  let s := pyTake 100 (header_subtitle content)
  if s = "" then "Discover amazing content and services" else s

/-- Embeds `_generate_header_html` (src/backend/app/ai_generator.py:554). -/
def generate_header_html (c : Component) : String :=
  "    <header class=\"hero\">\n        <div class=\"container\">\n            <h1>" ++
  header_title_slot c.content ++ "</h1>\n            <p>" ++
  header_subtitle_slot c.content ++
  "</p>\n            <a href=\"#learn-more\" class=\"btn\">Learn More</a>\n        </div>\n    </header>"

/-- The per-section paragraph slot of the headings branch of
`_generate_main_content_html`:
`(paragraphs[i] if i < len(paragraphs) else 'Content coming soon...')[:300]`. -/
def main_section_paragraph (paragraphs : List String) (i : Nat) : String :=
  pyTake 300 (paragraphs.getD i "Content coming soon...")

/-- The heading text slot: `heading.get('text', f'Section {i+1}')`. -/
def heading_text (h : Option String) (i : Nat) : String :=
  h.getD ("Section " ++ toString (i + 1))

/-- The headings branch of `_generate_main_content_html`: one block per
heading in `headings[:3]`. -/
def headings_sections (headings : List (Option String))
    (paragraphs : List String) : List String :=
  (headings.take 3).enum.map
    (fun ih =>
      "            <div class=\"content-section\">\n                <h2>" ++
      heading_text ih.2 ih.1 ++ "</h2>\n                <p>" ++
      main_section_paragraph paragraphs ih.1 ++ "</p>\n            </div>")

/-- The fallback branch of `_generate_main_content_html`: split the free text
on blank lines, keep the first three non-blank parts, first as a heading. -/
def fallback_sections (content : String) : List String :=
  let content_parts :=
    if content = "" then ["Welcome to our website"] else pySplitDoubleNl content
  (content_parts.take 3).enum.filterMap
    (fun ip =>
      if pyStrip ip.2 ≠ "" then
        some
          (if ip.1 = 0 then
            "            <div class=\"content-section\">\n                <h2>" ++
            pyTake 100 (pyStrip ip.2) ++ "</h2>\n            </div>"
          else
            "            <div class=\"content-section\">\n                <p>" ++
            pyTake 300 (pyStrip ip.2) ++ "</p>\n            </div>")
      else none)

/-- Embeds `_generate_main_content_html` (src/backend/app/ai_generator.py:568). -/
def generate_main_content_html (c : Component) : String :=
  let sections_html :=
    if c.headings ≠ [] ∧ c.paragraphs ≠ [] then
      headings_sections c.headings c.paragraphs
    else fallback_sections c.content
  let sections_content :=
    if sections_html ≠ [] then String.intercalate "\n" sections_html
    else
      "            <div class=\"content-section\">\n                <h2>Welcome</h2>\n                <p>This is the main content area of the website.</p>\n            </div>"
  "    <main class=\"main-content\">\n        <div class=\"container\">\n" ++
  sections_content ++
  "\n            <div class=\"content-section\">\n                <a href=\"#contact\" class=\"btn\">Get Started</a>\n            </div>\n        </div>\n    </main>"

/-- The footer text slot:
`content[:100] if content else '© 2024 All rights reserved.'`. -/
def footer_text_slot (content : String) : String :=
  if content = "" then "© 2024 All rights reserved." else pyTake 100 content

/-- Embeds `_generate_footer_html` (src/backend/app/ai_generator.py:612). -/
def generate_footer_html (c : Component) : String :=
  "    <footer class=\"footer\">\n        <div class=\"container\">\n            <p>" ++
  footer_text_slot c.content ++ "</p>\n        </div>\n    </footer>"

/-- Embeds `_generate_component_html` (src/backend/app/ai_generator.py:525). -/
def generate_component_html (c : Component) : String :=
  match c.type with
  | .navigation => generate_navigation_html c
  | .header => generate_header_html c
  | .main_content => generate_main_content_html c
  | .footer => generate_footer_html c

/-- The component sort of `_generate_html_structure`:
`sorted(self.components, key=lambda x: x.get('priority', 0), reverse=True)`.
Python `sorted` with `reverse=True` is a stable sort by priority descending,
which is exactly insertion sort under the relation `b.priority ≤ a.priority`. -/
def sort_components (components : List Component) : List Component :=
  List.insertionSort (fun a b => b.priority ≤ a.priority) components

/-- Embeds `_generate_html_structure` (src/backend/app/ai_generator.py:511). -/
def generate_html_structure (components : List Component) : String :=
  let html_parts := (sort_components components).foldl
    (fun acc c =>
      let component_html := generate_component_html c
      if component_html ≠ "" then acc ++ [component_html] else acc)
    []
  String.intercalate "\n" html_parts

/-- Embeds `_combine_html_and_css` (src/backend/app/ai_generator.py:623). -/
def combine_html_and_css (sd : ScrapedData) (html_structure css : String) :
    String :=
  let title := sd.text_content.title.getD "Cloned Website"
  "<!DOCTYPE html>\n<html lang=\"en\">\n<head>\n    <meta charset=\"UTF-8\">\n    <meta name=\"viewport\" content=\"width=device-width, initial-scale=1.0\">\n    <title>" ++
  title ++ "</title>\n    <style>\n" ++ css ++
  "\n    </style>\n</head>\n<body>\n" ++ html_structure ++ "\n</body>\n</html>"

/-- Embeds `_fallback_html` (src/backend/app/ai_generator.py:642): the fixed,
self-contained document substituted on any pipeline failure. -/
def fallback_html : String :=
  "<!DOCTYPE html>\n<html lang=\"en\">\n<head>\n    <meta charset=\"UTF-8\">\n    <meta name=\"viewport\" content=\"width=device-width, initial-scale=1.0\">\n    <title>Website Clone</title>\n    <style>\n        body \x7b font-family: Arial, sans-serif; margin: 0; padding: 20px; \x7d\n        .container \x7b max-width: 1200px; margin: 0 auto; \x7d\n        h1 \x7b color: #333; margin-bottom: 20px; \x7d\n        p \x7b line-height: 1.6; color: #666; \x7d\n    </style>\n</head>\n<body>\n    <div class=\"container\">\n        <h1>Website Clone</h1>\n        <p>AI enhancement failed, but basic structure generated.</p>\n    </div>\n</body>\n</html>"

/-! Pipeline orchestration.  The `try/except` of
`AIHTMLGenerator.generate_enhanced_html` is modelled with `Except`: the
pipeline body either produces a document or raises, and the single boundary
converts any raised exception into the fixed fallback document. -/

/-- A raised Python exception, identified by its message. -/
abbrev PyError := String

/-- The `except` boundary of `generate_enhanced_html`
(src/backend/app/ai_generator.py:36): an `ok` document passes through, any
exception is replaced by the fixed fallback document. -/
def generate_enhanced_html_boundary (pipeline : Except PyError String) : String :=
  match pipeline with
  | .ok full_html => full_html
  | .error _ => fallback_html

/-- The `try` body of `generate_enhanced_html` over already-analyzed
components: CSS generation, HTML structure, document assembly.  In the
embedding these steps are total, so the body succeeds. -/
def run_pipeline (sd : ScrapedData) (dt : DesignTokens) (la : LayoutAnalysis)
    (components : List Component) : Except PyError String :=
  .ok (combine_html_and_css sd (generate_html_structure components)
        (generate_enhanced_css sd dt la components))

/-- The mutable instance state of `AIHTMLGenerator`: `self.components`. -/
structure GenState where
  components : List Component
deriving DecidableEq, Repr

/-- Embeds the method `AIHTMLGenerator.generate_enhanced_html`
(src/backend/app/ai_generator.py:19) as a state transformer: component
analysis appends to `self.components`, then the pipeline runs over the
accumulated list behind the exception boundary. -/
def instance_generate_enhanced_html (sd : ScrapedData) (dt : DesignTokens)
    (la : LayoutAnalysis) (st : GenState) : String × GenState :=
  let comps := analyze_page_components sd st.components
  (generate_enhanced_html_boundary (run_pipeline sd dt la comps), ⟨comps⟩)

/-- Embeds the module-level `generate_enhanced_html`
(src/backend/app/ai_generator.py:665): a fresh `AIHTMLGenerator` (empty
component state) is constructed per call. -/
def module_generate_enhanced_html (sd : ScrapedData) (dt : DesignTokens)
    (la : LayoutAnalysis) : String :=
  (instance_generate_enhanced_html sd dt la ⟨[]⟩).1

/-! Order instances for the two sort relations used by the embedding. -/

instance : IsTotal (String × Nat) (fun a b => b.2 ≤ a.2) :=
  ⟨fun a b => Nat.le_total b.2 a.2⟩

instance : IsTrans (String × Nat) (fun a b => b.2 ≤ a.2) :=
  ⟨fun _ _ _ hab hbc => Nat.le_trans hbc hab⟩

instance : IsTotal Component (fun a b => b.priority ≤ a.priority) :=
  ⟨fun a b => Nat.le_total b.priority a.priority⟩

instance : IsTrans Component (fun a b => b.priority ≤ a.priority) :=
  ⟨fun _ _ _ hab hbc => Nat.le_trans hbc hab⟩

instance : IsAntisymm Component (fun a b => b.priority < a.priority) :=
  ⟨fun a b hab hba => absurd (Nat.lt_trans hab hba) (Nat.lt_irrefl _)⟩

/-! Concrete sample inputs used by witness theorems. -/

/-- Sample style records: one black text color (seen twice via two records)
and one non-rgb background value. -/
def sampleStyles : List StyleRecord :=
  [{ label := "body", selector := "body",
     styles := [("color", "rgb(0,0,0)"), ("backgroundColor", "#fff")] },
   { label := "paragraph", selector := "p",
     styles := [("color", "rgb(0,0,0)")] }]

/-- Sample navigation component (extraction shape, empty payloads). -/
def sampleNav : Component :=
  { type := .navigation, styles := [], content := "", data := [],
    headings := [], paragraphs := [], priority := 10 }

/-- Sample header component. -/
def sampleHeader : Component :=
  { type := .header, styles := [], content := "", data := [],
    headings := [], paragraphs := [], priority := 9 }

/-- Sample main-content component. -/
def sampleMain : Component :=
  { type := .main_content, styles := [], content := "", data := [],
    headings := [], paragraphs := [], priority := 8 }

/-- A second main-content component with the same priority as `sampleMain`,
for exercising tie stability. -/
def sampleMainB : Component :=
  { type := .main_content, styles := [], content := "second", data := [],
    headings := [], paragraphs := [], priority := 8 }

/-- Sample footer component. -/
def sampleFooter : Component :=
  { type := .footer, styles := [], content := "", data := [],
    headings := [], paragraphs := [], priority := 5 }

/-- Sample snapshot with a header zone and empty main text but non-empty
headings/paragraphs lists. -/
def sampleScraped : ScrapedData :=
  { semantic_analysis := { sections := ["header"], navigation_elements := [] }
    computed_styles := sampleStyles
    text_content :=
      { title := none, header := "Hi", main := "", footer := "",
        headings := [some "H1"], paragraphs := ["P1"] }
    responsive_info := some [360, 1280] }

/-- Sample design tokens (all buckets empty). -/
def sampleTokens : DesignTokens :=
  { colors_primary := [], colors_text := [], colors_background := [],
    primary_font := none }

/-- Sample layout analysis. -/
def sampleLayout : LayoutAnalysis := { layout_type := some "grid" }

/-- A string of `n` copies of the letter a, for boundary-length inputs. -/
def aRep (n : Nat) : String := ⟨List.replicate n 'a'⟩

/-! Basic lemmas about the classification fold. -/

theorem classifyOne_ne_secondary (v : String) (u : Nat) :
    classifyOne v u ≠ Bucket.secondary := by
  unfold classifyOne
  split_ifs <;> simp

theorem bucketGet_classifyStep (colors : ColorBuckets) (cu : String × Nat)
    (b : Bucket) :
    bucketGet (classifyStep colors cu) b =
      if classifyOne cu.1 cu.2 = b then bucketGet colors b ++ [cu.1]
      else bucketGet colors b := by
  unfold classifyStep classifyOne
  split_ifs with h1 h2 h3 <;> cases b <;> simp_all [bucketGet]

theorem bucketGet_foldl (l : List (String × Nat)) (init : ColorBuckets)
    (b : Bucket) :
    bucketGet (l.foldl classifyStep init) b =
      bucketGet init b ++
        (l.filter (fun cu => classifyOne cu.1 cu.2 = b)).map Prod.fst := by
  induction l generalizing init with
  | nil => simp
  | cons x xs ih =>
      rw [List.foldl_cons, ih, List.filter_cons]
      by_cases h : classifyOne x.1 x.2 = b
      · simp [h, bucketGet_classifyStep]
      · simp [h, bucketGet_classifyStep]

theorem mem_bucket_iff (computed_styles : List StyleRecord) (b : Bucket)
    (v : String) :
    v ∈ bucketGet (intelligent_color_extraction computed_styles) b ↔
      ∃ u, (v, u) ∈ topColors computed_styles ∧ classifyOne v u = b := by
  unfold intelligent_color_extraction
  rw [bucketGet_foldl]
  have hinit :
      bucketGet
        { primary := [], secondary := [], text := [], background := [],
          accent := [] } b = [] := by
    cases b <;> rfl
  rw [hinit, List.nil_append]
  simp only [List.mem_map, List.mem_filter]
  constructor
  · rintro ⟨⟨w, u⟩, ⟨hmem, hcls⟩, rfl⟩
    exact ⟨u, hmem, by simpa using hcls⟩
  · rintro ⟨u, hmem, hcls⟩
    exact ⟨(v, u), ⟨hmem, by simpa using hcls⟩, rfl⟩

theorem bumpColor_keys (m : List (String × Nat)) (v : String) :
    (bumpColor m v).map Prod.fst =
      if v ∈ m.map Prod.fst then m.map Prod.fst
      else m.map Prod.fst ++ [v] := by
  induction m with
  | nil => simp [bumpColor]
  | cons kv rest ih =>
      obtain ⟨k, c⟩ := kv
      by_cases hk : k = v
      · subst hk
        simp [bumpColor]
      · simp only [bumpColor, hk, if_false, List.map_cons, ih, List.mem_cons]
        by_cases hv : v ∈ rest.map Prod.fst
        · simp [hv, Ne.symm hk]
        · simp [hv, Ne.symm hk]

theorem bumpColor_keys_nodup {m : List (String × Nat)} {v : String}
    (h : (m.map Prod.fst).Nodup) :
    ((bumpColor m v).map Prod.fst).Nodup := by
  rw [bumpColor_keys]
  by_cases hv : v ∈ m.map Prod.fst
  · simpa [hv] using h
  · simpa [hv, List.nodup_append] using h

theorem foldl_preserves {α β : Type} (P : β → Prop) (f : β → α → β)
    (hf : ∀ b a, P b → P (f b a)) :
    ∀ (l : List α) (b : β), P b → P (l.foldl f b) := by
  intro l
  induction l with
  | nil => intro b hb; simpa using hb
  | cons x xs ih => intro b hb; exact ih _ (hf b x hb)

theorem color_usage_keys_nodup (computed_styles : List StyleRecord) :
    ((color_usage computed_styles).map Prod.fst).Nodup := by
  unfold color_usage
  refine foldl_preserves
    (fun m : List (String × Nat) => (m.map Prod.fst).Nodup) _ ?_ _ _ (by simp)
  intro m sd hm
  refine foldl_preserves
    (fun m : List (String × Nat) => (m.map Prod.fst).Nodup) _ ?_ _ _ hm
  intro m2 pv hm2
  unfold recordColorStep
  split_ifs with h
  · exact bumpColor_keys_nodup hm2
  · exact hm2

theorem topColors_keys_nodup (computed_styles : List StyleRecord) :
    ((topColors computed_styles).map Prod.fst).Nodup := by
  have hperm : List.Perm (sorted_colors computed_styles)
      (color_usage computed_styles) := List.perm_insertionSort _ _
  have hnodup : ((sorted_colors computed_styles).map Prod.fst).Nodup :=
    ((hperm.map Prod.fst).nodup_iff).mpr (color_usage_keys_nodup computed_styles)
  have hsub : ((topColors computed_styles).map Prod.fst).Sublist
      ((sorted_colors computed_styles).map Prod.fst) := by
    unfold topColors
    exact (List.take_sublist _ _).map _
  exact hnodup.sublist hsub

theorem assoc_key_unique {l : List (String × Nat)} {v : String} {u₁ u₂ : Nat}
    (hnd : (l.map Prod.fst).Nodup) (h₁ : (v, u₁) ∈ l) (h₂ : (v, u₂) ∈ l) :
    u₁ = u₂ := by
  induction l with
  | nil => cases h₁
  | cons kv rest ih =>
      obtain ⟨k, c⟩ := kv
      simp only [List.map_cons, List.nodup_cons] at hnd
      rcases List.mem_cons.mp h₁ with h₁ | h₁ <;>
        rcases List.mem_cons.mp h₂ with h₂ | h₂
      · injection h₁ with hv₁ hu₁
        injection h₂ with hv₂ hu₂
        rw [hu₁, hu₂]
      · exfalso
        injection h₁ with hv₁ hu₁
        exact hnd.1 (hv₁ ▸ List.mem_map_of_mem Prod.fst h₂)
      · exfalso
        injection h₂ with hv₂ hu₂
        exact hnd.1 (hv₂ ▸ List.mem_map_of_mem Prod.fst h₁)
      · exact ih hnd.2 h₁ h₂

theorem strContainsSub_empty_rgb : strContainsSub "" "rgb" = false := by decide

theorem is_background_color_iff (v : String) :
    is_background_color v = true ↔ ∃ s, rgbSum3 v = some s ∧ 600 < s := by
  by_cases hc : strContainsSub v "rgb" = true
  · have hv : ¬v = "" := by
      rintro rfl
      rw [strContainsSub_empty_rgb] at hc
      cases hc
    by_cases hl : (digitRuns v).length ≥ 3
    · simp [is_background_color, rgbSum3, hc, hv, hl]
    · simp [is_background_color, rgbSum3, hc, hv, hl]
  · have hc2 : strContainsSub v "rgb" = false := by
      simpa using hc
    simp [is_background_color, rgbSum3, hc2]

theorem is_text_color_iff (v : String) :
    is_text_color v = true ↔ ∃ s, rgbSum3 v = some s ∧ s < 300 := by
  by_cases hc : strContainsSub v "rgb" = true
  · have hv : ¬v = "" := by
      rintro rfl
      rw [strContainsSub_empty_rgb] at hc
      cases hc
    by_cases hl : (digitRuns v).length ≥ 3
    · simp [is_text_color, rgbSum3, hc, hv, hl]
    · simp [is_text_color, rgbSum3, hc, hv, hl]
  · have hc2 : strContainsSub v "rgb" = false := by
      simpa using hc
    simp [is_text_color, rgbSum3, hc2]

theorem mem_bucket_iff_classify {computed_styles : List StyleRecord}
    {v : String} {u : Nat} (hmem : (v, u) ∈ topColors computed_styles)
    (b : Bucket) :
    v ∈ bucketGet (intelligent_color_extraction computed_styles) b ↔
      classifyOne v u = b := by
  rw [mem_bucket_iff]
  constructor
  · rintro ⟨u2, hm2, hc⟩
    rwa [assoc_key_unique (topColors_keys_nodup computed_styles) hm2 hmem] at hc
  · exact fun h => ⟨u, hmem, h⟩

theorem classifyOne_eq_background_iff (v : String) (u : Nat) :
    classifyOne v u = Bucket.background ↔ is_background_color v = true := by
  unfold classifyOne
  split_ifs <;> simp_all

theorem classifyOne_eq_text_iff (v : String) (u : Nat) :
    classifyOne v u = Bucket.text ↔
      is_background_color v = false ∧ is_text_color v = true := by
  unfold classifyOne
  split_ifs <;> simp_all

theorem classifyOne_eq_primary_iff (v : String) (u : Nat) :
    classifyOne v u = Bucket.primary ↔
      is_background_color v = false ∧ is_text_color v = false ∧ 3 < u := by
  unfold classifyOne
  split_ifs <;> simp_all

theorem classifyOne_eq_accent_iff (v : String) (u : Nat) :
    classifyOne v u = Bucket.accent ↔
      is_background_color v = false ∧ is_text_color v = false ∧ u ≤ 3 := by
  unfold classifyOne
  split_ifs <;> simp_all

theorem not_bg_not_text_iff (v : String) :
    (is_background_color v = false ∧ is_text_color v = false) ↔
      ∀ s, rgbSum3 v = some s → 300 ≤ s ∧ s ≤ 600 := by
  constructor
  · rintro ⟨hbg, htxt⟩ s hs
    refine ⟨?_, ?_⟩
    · by_contra h
      have h2 : is_text_color v = true :=
        (is_text_color_iff v).mpr ⟨s, hs, by omega⟩
      rw [htxt] at h2
      cases h2
    · by_contra h
      have h2 : is_background_color v = true :=
        (is_background_color_iff v).mpr ⟨s, hs, by omega⟩
      rw [hbg] at h2
      cases h2
  · intro h
    refine ⟨?_, ?_⟩
    · by_contra hb
      have hb2 : is_background_color v = true := by simpa using hb
      rcases (is_background_color_iff v).mp hb2 with ⟨s, hs, hgt⟩
      have := h s hs
      omega
    · by_contra ht
      have ht2 : is_text_color v = true := by simpa using ht
      rcases (is_text_color_iff v).mp ht2 with ⟨s, hs, hlt⟩
      have := h s hs
      omega

/-- C1: for every list of computed style records, `intelligent_color_extraction`
places each raw color value string into at most one of the five buckets; every
bucket member is drawn from the top-10 window of values ranked by usage count
descending (the ranking really is sorted descending); a top-10 value with no
parsable RGB component and usage count at most 3 lands in the accent bucket;
and every top-10 value lands in some bucket, so none is dropped. -/
theorem C1_color_classification (cs : List StyleRecord) (v : String) (u : Nat) :
    ((sorted_colors cs).Sorted (fun a b => b.2 ≤ a.2)) ∧
    (∀ b₁ b₂ : Bucket, v ∈ bucketGet (intelligent_color_extraction cs) b₁ →
      v ∈ bucketGet (intelligent_color_extraction cs) b₂ → b₁ = b₂) ∧
    (∀ b : Bucket, v ∈ bucketGet (intelligent_color_extraction cs) b →
      v ∈ (topColors cs).map Prod.fst) ∧
    ((v, u) ∈ topColors cs → rgbSum3 v = none → u ≤ 3 →
      v ∈ (intelligent_color_extraction cs).accent) ∧
    ((v, u) ∈ topColors cs →
      ∃ b : Bucket, v ∈ bucketGet (intelligent_color_extraction cs) b) := by
  refine ⟨List.sorted_insertionSort _ _, ?_, ?_, ?_, ?_⟩
  · intro b₁ b₂ h1 h2
    rw [mem_bucket_iff] at h1 h2
    obtain ⟨u₁, hm₁, hc₁⟩ := h1
    obtain ⟨u₂, hm₂, hc₂⟩ := h2
    rw [assoc_key_unique (topColors_keys_nodup cs) hm₁ hm₂] at hc₁
    rw [← hc₁, ← hc₂]
  · intro b hb
    rw [mem_bucket_iff] at hb
    obtain ⟨u₂, hm, _⟩ := hb
    exact List.mem_map_of_mem Prod.fst hm
  · intro hm hnone hle
    have hbg : is_background_color v = false := by
      by_contra h
      have h2 : is_background_color v = true := by simpa using h
      rcases (is_background_color_iff v).mp h2 with ⟨s, hs, _⟩
      rw [hnone] at hs
      cases hs
    have htxt : is_text_color v = false := by
      by_contra h
      have h2 : is_text_color v = true := by simpa using h
      rcases (is_text_color_iff v).mp h2 with ⟨s, hs, _⟩
      rw [hnone] at hs
      cases hs
    exact (mem_bucket_iff_classify hm Bucket.accent).mpr
      ((classifyOne_eq_accent_iff v u).mpr ⟨hbg, htxt, hle⟩)
  · intro hm
    exact ⟨classifyOne v u, (mem_bucket_iff_classify hm _).mpr rfl⟩

/-- Witness for C1 at the sample records: the non-parsable value with usage
count 1 lands in the accent bucket and is part of the top-10 window. -/
theorem C1_color_classification_witness :
    "#fff" ∈ (intelligent_color_extraction sampleStyles).accent ∧
    "#fff" ∈ (topColors sampleStyles).map Prod.fst := by
  have h := C1_color_classification sampleStyles "#fff" 1
  refine ⟨h.2.2.2.1 (by decide) (by decide) (by decide), ?_⟩
  exact h.2.2.1 Bucket.accent (h.2.2.2.1 (by decide) (by decide) (by decide))

/-- C2: each top-10 value is classified as background exactly when the mean of
the first three RGB components of an rgb()/rgba() value exceeds 200 (sum over
600); else text when the mean is below 100 (sum under 300); else primary when
its usage count exceeds 3; else accent.  Values not containing `rgb` are never
classified as background or text, and `rgb(0,0,0)` always lands in the text
bucket regardless of its usage count or originating property. -/
theorem C2_classification_rule (cs : List StyleRecord) (v : String) (u : Nat)
    (hmem : (v, u) ∈ topColors cs) :
    (v ∈ (intelligent_color_extraction cs).background ↔
      ∃ s, rgbSum3 v = some s ∧ 600 < s) ∧
    (v ∈ (intelligent_color_extraction cs).text ↔
      ∃ s, rgbSum3 v = some s ∧ s < 300) ∧
    (v ∈ (intelligent_color_extraction cs).primary ↔
      (3 < u ∧ ∀ s, rgbSum3 v = some s → 300 ≤ s ∧ s ≤ 600)) ∧
    (v ∈ (intelligent_color_extraction cs).accent ↔
      (u ≤ 3 ∧ ∀ s, rgbSum3 v = some s → 300 ≤ s ∧ s ≤ 600)) ∧
    (strContainsSub v "rgb" = false →
      v ∉ (intelligent_color_extraction cs).background ∧
      v ∉ (intelligent_color_extraction cs).text) ∧
    (v = "rgb(0,0,0)" → v ∈ (intelligent_color_extraction cs).text) := by
  have hbgm : v ∈ (intelligent_color_extraction cs).background ↔
      classifyOne v u = Bucket.background :=
    mem_bucket_iff_classify hmem Bucket.background
  have htxm : v ∈ (intelligent_color_extraction cs).text ↔
      classifyOne v u = Bucket.text :=
    mem_bucket_iff_classify hmem Bucket.text
  have hprm : v ∈ (intelligent_color_extraction cs).primary ↔
      classifyOne v u = Bucket.primary :=
    mem_bucket_iff_classify hmem Bucket.primary
  have hacm : v ∈ (intelligent_color_extraction cs).accent ↔
      classifyOne v u = Bucket.accent :=
    mem_bucket_iff_classify hmem Bucket.accent
  have hbg_iff : v ∈ (intelligent_color_extraction cs).background ↔
      ∃ s, rgbSum3 v = some s ∧ 600 < s := by
    rw [hbgm, classifyOne_eq_background_iff, is_background_color_iff]
  have htx_iff : v ∈ (intelligent_color_extraction cs).text ↔
      ∃ s, rgbSum3 v = some s ∧ s < 300 := by
    rw [htxm, classifyOne_eq_text_iff]
    constructor
    · rintro ⟨-, ht⟩
      exact (is_text_color_iff v).mp ht
    · rintro ⟨s, hs, hlt⟩
      refine ⟨?_, (is_text_color_iff v).mpr ⟨s, hs, hlt⟩⟩
      by_contra h
      have h2 : is_background_color v = true := by simpa using h
      rcases (is_background_color_iff v).mp h2 with ⟨s2, hs2, hgt⟩
      rw [hs] at hs2
      injection hs2 with hss
      omega
  refine ⟨hbg_iff, htx_iff, ?_, ?_, ?_, ?_⟩
  · rw [hprm, classifyOne_eq_primary_iff]
    constructor
    · rintro ⟨hbg, htx, hu⟩
      exact ⟨hu, (not_bg_not_text_iff v).mp ⟨hbg, htx⟩⟩
    · rintro ⟨hu, hmid⟩
      have h2 := (not_bg_not_text_iff v).mpr hmid
      exact ⟨h2.1, h2.2, hu⟩
  · rw [hacm, classifyOne_eq_accent_iff]
    constructor
    · rintro ⟨hbg, htx, hu⟩
      exact ⟨hu, (not_bg_not_text_iff v).mp ⟨hbg, htx⟩⟩
    · rintro ⟨hu, hmid⟩
      have h2 := (not_bg_not_text_iff v).mpr hmid
      exact ⟨h2.1, h2.2, hu⟩
  · intro hc
    have hnone : rgbSum3 v = none := by simp [rgbSum3, hc]
    constructor
    · rw [hbg_iff]
      rintro ⟨s, hs, -⟩
      rw [hnone] at hs
      cases hs
    · rw [htx_iff]
      rintro ⟨s, hs, -⟩
      rw [hnone] at hs
      cases hs
  · rintro rfl
    exact htx_iff.mpr ⟨0, by decide, by omega⟩

/-- Witness for C2 at the sample records: the black text color (usage 2,
appearing both as a `color` and in a record alongside `backgroundColor`)
lands in the text bucket. -/
theorem C2_classification_rule_witness :
    "rgb(0,0,0)" ∈ (intelligent_color_extraction sampleStyles).text := by
  have h := C2_classification_rule sampleStyles "rgb(0,0,0)" 2 (by decide)
  exact h.2.2.2.2.2 rfl

theorem string_length_data (s : String) : s.length = s.data.length := rfl

theorem splitOnCharList_cons (sep c : Char) (rest : List Char) :
    splitOnCharList sep (c :: rest) =
      match splitOnCharList sep rest with
      | [] => [[c]]
      | g :: gs => if c = sep then [] :: g :: gs else (c :: g) :: gs := rfl

theorem splitOnCharList_ne_nil (sep : Char) (cs : List Char) :
    splitOnCharList sep cs ≠ [] := by
  induction cs with
  | nil => simp [splitOnCharList]
  | cons c rest ih =>
      rw [splitOnCharList_cons]
      cases h : splitOnCharList sep rest with
      | nil => simp
      | cons g gs => split_ifs <;> simp

theorem splitOnCharList_no_sep {sep : Char} {cs : List Char} (h : sep ∉ cs) :
    splitOnCharList sep cs = [cs] := by
  induction cs with
  | nil => rfl
  | cons c rest ih =>
      rw [splitOnCharList_cons, ih (fun hm => h (List.mem_cons_of_mem c hm))]
      have hc : ¬(c = sep) := fun hh => h (by rw [hh]; exact List.mem_cons_self sep rest)
      simp [hc]

theorem splitOnCharList_sep_append {sep : Char} {l1 : List Char}
    (l2 : List Char) (h : sep ∉ l1) :
    splitOnCharList sep (l1 ++ sep :: l2) = l1 :: splitOnCharList sep l2 := by
  induction l1 with
  | nil =>
      simp only [List.nil_append]
      rw [splitOnCharList_cons]
      cases hrec : splitOnCharList sep l2 with
      | nil => exact absurd hrec (splitOnCharList_ne_nil sep l2)
      | cons g gs => simp
  | cons c rest ih =>
      have hc : ¬(c = sep) := fun hh => h (by rw [hh]; exact List.mem_cons_self sep rest)
      rw [List.cons_append, splitOnCharList_cons,
        ih (fun hm => h (List.mem_cons_of_mem c hm))]
      simp [hc]

theorem pySplitNl_single {t : String} (h : '\n' ∉ t.data) : pySplitNl t = [t] := by
  unfold pySplitNl
  rw [splitOnCharList_no_sep h]
  rfl

theorem pySplitNl_two {l1 s2 : String} (h1 : '\n' ∉ l1.data)
    (h2 : '\n' ∉ s2.data) : pySplitNl (l1 ++ "\n" ++ s2) = [l1, s2] := by
  unfold pySplitNl
  have hdata : (l1 ++ "\n" ++ s2).data = l1.data ++ '\n' :: s2.data := by
    simp [String.data_append]
  rw [hdata, splitOnCharList_sep_append _ h1, splitOnCharList_no_sep h2]
  rfl

theorem pyTake_of_length_le {n : Nat} {s : String} (h : s.length ≤ n) :
    pyTake n s = s := by
  unfold pyTake
  rw [List.take_of_length_le (by rw [← string_length_data]; exact h)]

theorem pyTake_length (n : Nat) (s : String) :
    (pyTake n s).length = min n s.length := by
  show (s.data.take n).length = min n s.length
  rw [List.length_take, string_length_data]

theorem string_ne_empty_of_length {s : String} {n : Nat} (h : s.length = n)
    (hn : 0 < n) : s ≠ "" := by
  intro he
  rw [he, show ("" : String).length = 0 from rfl] at h
  omega

/-- C3: HTML synthesis truncation is exact.  The header title slot is at most
50 characters, the subtitle slot at most 100, each main-content paragraph slot
at most 300, and the footer text slot at most 100; a line of exactly the limit
length passes through unmodified, while a line one character longer is cut to
exactly the limit. -/
theorem C3_truncation :
    (∀ content : String, (header_title_slot content).length ≤ 50) ∧
    (∀ content : String, (header_subtitle_slot content).length ≤ 100) ∧
    (∀ (ps : List String) (i : Nat),
      (main_section_paragraph ps i).length ≤ 300) ∧
    (∀ content : String, (footer_text_slot content).length ≤ 100) ∧
    (∀ t : String, '\n' ∉ t.data → t.length = 50 → header_title_slot t = t) ∧
    (∀ t : String, '\n' ∉ t.data → t.length = 51 →
      header_title_slot t = pyTake 50 t ∧ (header_title_slot t).length = 50) ∧
    (∀ l1 s2 : String, '\n' ∉ l1.data → '\n' ∉ s2.data → s2.length = 100 →
      header_subtitle_slot (l1 ++ "\n" ++ s2) = s2) ∧
    (∀ l1 s2 : String, '\n' ∉ l1.data → '\n' ∉ s2.data → s2.length = 101 →
      header_subtitle_slot (l1 ++ "\n" ++ s2) = pyTake 100 s2 ∧
      (header_subtitle_slot (l1 ++ "\n" ++ s2)).length = 100) ∧
    (∀ p : String, p.length = 300 → main_section_paragraph [p] 0 = p) ∧
    (∀ p : String, p.length = 301 →
      main_section_paragraph [p] 0 = pyTake 300 p ∧
      (main_section_paragraph [p] 0).length = 300) ∧
    (∀ c : String, c.length = 100 → footer_text_slot c = c) ∧
    (∀ c : String, c.length = 101 →
      footer_text_slot c = pyTake 100 c ∧
      (footer_text_slot c).length = 100) := by
  have htitle : ∀ t : String, '\n' ∉ t.data → t ≠ "" → header_title t = t := by
    intro t hnl ht
    unfold header_title
    rw [if_neg ht, pySplitNl_single hnl]
    rfl
  have hsub2 : ∀ l1 s2 : String, '\n' ∉ l1.data → '\n' ∉ s2.data →
      header_subtitle (l1 ++ "\n" ++ s2) = s2 := by
    intro l1 s2 h1 h2
    unfold header_subtitle
    have hmem : '\n' ∈ (l1 ++ "\n" ++ s2).data := by
      simp [String.data_append]
    rw [if_pos hmem, pySplitNl_two h1 h2]
    rfl
  refine ⟨?_, ?_, ?_, ?_, ?_, ?_, ?_, ?_, ?_, ?_, ?_, ?_⟩
  · intro content
    unfold header_title_slot
    dsimp only
    split_ifs with h
    · decide
    · rw [pyTake_length]
      omega
  · intro content
    unfold header_subtitle_slot
    dsimp only
    split_ifs with h
    · decide
    · rw [pyTake_length]
      omega
  · intro ps i
    unfold main_section_paragraph
    rw [pyTake_length]
    omega
  · intro content
    unfold footer_text_slot
    split_ifs with h
    · decide
    · rw [pyTake_length]
      omega
  · intro t hnl hlen
    have ht := string_ne_empty_of_length hlen (by omega)
    unfold header_title_slot
    rw [htitle t hnl ht, pyTake_of_length_le (by omega), if_neg ht]
  · intro t hnl hlen
    have ht := string_ne_empty_of_length hlen (by omega)
    have hne : pyTake 50 t ≠ "" :=
      string_ne_empty_of_length (n := 50) (by rw [pyTake_length]; omega) (by omega)
    unfold header_title_slot
    rw [htitle t hnl ht, if_neg hne]
    exact ⟨rfl, by rw [pyTake_length]; omega⟩
  · intro l1 s2 h1 h2 hlen
    have hs : s2 ≠ "" := string_ne_empty_of_length hlen (by omega)
    unfold header_subtitle_slot
    rw [hsub2 l1 s2 h1 h2, pyTake_of_length_le (by omega), if_neg hs]
  · intro l1 s2 h1 h2 hlen
    have hne : pyTake 100 s2 ≠ "" :=
      string_ne_empty_of_length (n := 100) (by rw [pyTake_length]; omega) (by omega)
    unfold header_subtitle_slot
    rw [hsub2 l1 s2 h1 h2, if_neg hne]
    exact ⟨rfl, by rw [pyTake_length]; omega⟩
  · intro p hlen
    unfold main_section_paragraph
    show pyTake 300 p = p
    exact pyTake_of_length_le (by omega)
  · intro p hlen
    refine ⟨rfl, ?_⟩
    unfold main_section_paragraph
    show (pyTake 300 p).length = 300
    rw [pyTake_length]
    omega
  · intro c hlen
    have hc := string_ne_empty_of_length hlen (by omega)
    unfold footer_text_slot
    rw [if_neg hc]
    exact pyTake_of_length_le (by omega)
  · intro c hlen
    have hc := string_ne_empty_of_length hlen (by omega)
    unfold footer_text_slot
    rw [if_neg hc]
    exact ⟨rfl, by rw [pyTake_length]; omega⟩

/-- Witness for C3 at boundary-length inputs built from repeated letters. -/
theorem C3_truncation_witness :
    header_title_slot (aRep 50) = aRep 50 ∧
    (header_title_slot (aRep 51)).length = 50 ∧
    header_subtitle_slot (aRep 3 ++ "\n" ++ aRep 100) = aRep 100 ∧
    main_section_paragraph [aRep 300] 0 = aRep 300 ∧
    footer_text_slot (aRep 100) = aRep 100 ∧
    (footer_text_slot (aRep 101)).length = 100 := by
  obtain ⟨h1, h2, h3, h4, h5, h6, h7, h8, h9, h10, h11, h12⟩ := C3_truncation
  refine ⟨h5 _ (by decide) (by decide), (h6 _ (by decide) (by decide)).2,
    h7 _ _ (by decide) (by decide) (by decide), h9 _ ?_, h11 _ (by decide),
    (h12 _ (by decide)).2⟩
  rw [string_length_data]
  show (List.replicate 300 'a').length = 300
  rw [List.length_replicate]

/-- C4: HTML synthesis sorts the component list by priority descending with a
stable sort (a pair in input order with equal priorities stays in that order),
and for any input order of four components with priorities 10, 9, 8, 5
(navigation, header, main content, footer), the sorted order and hence the
emitted fragment order is always navigation, header, main content, footer. -/
theorem C4_component_ordering :
    (∀ (l : List Component) (a b : Component), a.priority = b.priority →
      [a, b].Sublist l → [a, b].Sublist (sort_components l)) ∧
    (∀ n h m f : Component, n.type = ComponentType.navigation →
      h.type = ComponentType.header → m.type = ComponentType.main_content →
      f.type = ComponentType.footer → n.priority = 10 → h.priority = 9 →
      m.priority = 8 → f.priority = 5 → ∀ l : List Component,
      List.Perm l [n, h, m, f] →
      sort_components l = [n, h, m, f] ∧
      generate_html_structure l = generate_html_structure [n, h, m, f]) := by
  constructor
  · intro l a b hab hsub
    exact List.pair_sublist_insertionSort (le_of_eq hab.symm) hsub
  · intro n h m f hn hh hm hf hpn hph hpm hpf l hperm
    have hperm2 : List.Perm (sort_components l) [n, h, m, f] :=
      (List.perm_insertionSort _ l).trans hperm
    have hsorted :
        (sort_components l).Pairwise (fun a b => b.priority ≤ a.priority) :=
      List.sorted_insertionSort _ l
    have hnodup : ((sort_components l).map (fun c => c.priority)).Nodup := by
      have htgt : (([n, h, m, f]).map (fun c => c.priority)).Nodup := by
        simp [hpn, hph, hpm, hpf]
      exact ((hperm2.map (fun c => c.priority)).nodup_iff).mpr htgt
    have hne :
        (sort_components l).Pairwise (fun a b => a.priority ≠ b.priority) :=
      List.pairwise_map.mp hnodup
    have hstrict :
        (sort_components l).Pairwise (fun a b => b.priority < a.priority) :=
      (hsorted.and hne).imp (fun hx => lt_of_le_of_ne hx.1 (Ne.symm hx.2))
    have htgt_sorted :
        ([n, h, m, f]).Pairwise (fun a b => b.priority < a.priority) := by
      simp [List.pairwise_cons, hpn, hph, hpm, hpf]
    have heq : sort_components l = [n, h, m, f] :=
      List.eq_of_perm_of_sorted hperm2 hstrict htgt_sorted
    refine ⟨heq, ?_⟩
    unfold generate_html_structure
    rw [heq]
    have hid : sort_components [n, h, m, f] = [n, h, m, f] :=
      List.Sorted.insertionSort_eq (htgt_sorted.imp (fun hx => le_of_lt hx))
    rw [hid]

/-- Witness for C4: the four sample components fed in reversed order come out
in priority order, and a priority tie keeps input order. -/
theorem C4_component_ordering_witness :
    sort_components [sampleFooter, sampleMain, sampleHeader, sampleNav] =
      [sampleNav, sampleHeader, sampleMain, sampleFooter] ∧
    [sampleMain, sampleMainB].Sublist
      (sort_components [sampleNav, sampleMain, sampleMainB]) := by
  constructor
  · exact (C4_component_ordering.2 sampleNav sampleHeader sampleMain
      sampleFooter rfl rfl rfl rfl rfl rfl rfl rfl
      [sampleFooter, sampleMain, sampleHeader, sampleNav] (by decide)).1
  · have hs := C4_component_ordering.1 [sampleNav, sampleMain, sampleMainB]
      sampleMain sampleMainB
    exact hs (by decide) (by decide)

theorem isInfix_append_left {x m : List Char} (l : List Char) (h : x <:+: m) :
    x <:+: l ++ m :=
  h.trans (List.suffix_append l m).isInfix

theorem isInfix_append_right {x m : List Char} (r : List Char) (h : x <:+: m) :
    x <:+: m ++ r :=
  h.trans (List.prefix_append m r).isInfix

theorem isSuffix_append_left {x m : List Char} (l : List Char) (h : x <:+ m) :
    x <:+ l ++ m :=
  h.trans (List.suffix_append l m)

theorem isPrefix_append_right {x m : List Char} (r : List Char) (h : x <+: m) :
    x <+: m ++ r :=
  h.trans (List.prefix_append m r)

set_option maxRecDepth 4096 in
theorem combine_doc_shell (sd : ScrapedData) (hs css : String) :
    ("<!DOCTYPE html>").data <+: (combine_html_and_css sd hs css).data ∧
    ("</html>").data <:+ (combine_html_and_css sd hs css).data := by
  unfold combine_html_and_css
  dsimp only
  simp only [String.data_append]
  constructor
  · repeat apply isPrefix_append_right
    decide
  · repeat apply isSuffix_append_left
    decide

set_option maxRecDepth 8192 in
/-- C5: any exception raised inside the pipeline body is caught at the single
boundary of `generate_enhanced_html` and replaced with exactly the fixed,
self-contained fallback document, which is non-empty and a complete HTML page;
on the success path the assembled document is likewise a complete page, so a
partial or empty document is never returned. -/
theorem C5_fallback_on_failure :
    (∀ e : PyError, generate_enhanced_html_boundary (Except.error e) =
      fallback_html) ∧
    fallback_html ≠ "" ∧
    ("<!DOCTYPE html>").data <+: fallback_html.data ∧
    ("</html>").data <:+ fallback_html.data ∧
    (∀ (sd : ScrapedData) (dt : DesignTokens) (la : LayoutAnalysis),
      ("<!DOCTYPE html>").data <+:
        (module_generate_enhanced_html sd dt la).data ∧
      ("</html>").data <:+ (module_generate_enhanced_html sd dt la).data) := by
  refine ⟨fun e => rfl, by decide, by decide, by decide, ?_⟩
  intro sd dt la
  exact combine_doc_shell sd
    (generate_html_structure (analyze_page_components sd []))
    (generate_enhanced_css sd dt la (analyze_page_components sd []))

set_option maxRecDepth 8192 in
/-- C6: the synthesized responsive CSS block is one fixed constant string for
every input snapshot; its media-query thresholds are the literal 768px and
480px values, and the breakpoints read from `responsive_info` never influence
the block. -/
theorem C6_responsive_css_fixed :
    (∀ sd₁ sd₂ : ScrapedData,
      generate_responsive_css sd₁ = generate_responsive_css sd₂) ∧
    (∀ sd : ScrapedData,
      ("@media (max-width: 768px)").data <:+:
        (generate_responsive_css sd).data ∧
      ("@media (max-width: 480px)").data <:+:
        (generate_responsive_css sd).data ∧
      ∀ bp : List Nat,
        generate_responsive_css { sd with responsive_info := some bp } =
          generate_responsive_css sd) := by
  refine ⟨fun sd₁ sd₂ => rfl, ?_⟩
  intro sd
  have hconst : generate_responsive_css sd =
      generate_responsive_css sampleScraped := rfl
  rw [hconst]
  exact ⟨by decide, by decide, fun bp => rfl⟩

set_option maxRecDepth 8192 in
/-- C7: the navigation HTML fragment is one fixed constant string containing
the brand placeholder and the four static nav links; the extracted navigation
element data is never interpolated into it. -/
theorem C7_navigation_html_fixed :
    (∀ c₁ c₂ : Component,
      generate_navigation_html c₁ = generate_navigation_html c₂) ∧
    (∀ c : Component,
      ("navbar-brand\">Brand<").data <:+: (generate_navigation_html c).data ∧
      ("href=\"#home\"").data <:+: (generate_navigation_html c).data ∧
      ("href=\"#about\"").data <:+: (generate_navigation_html c).data ∧
      ("href=\"#services\"").data <:+: (generate_navigation_html c).data ∧
      ("href=\"#contact\"").data <:+: (generate_navigation_html c).data) := by
  refine ⟨fun c₁ c₂ => rfl, ?_⟩
  intro c
  have hconst : generate_navigation_html c =
      generate_navigation_html sampleNav := rfl
  rw [hconst]
  exact ⟨by decide, by decide, by decide, by decide, by decide⟩

/-- C8: the pipeline is deterministic.  The module-level entry point builds a
fresh generator (empty component state) per call and is a pure function of the
three inputs, so equal `scraped_data`, `design_tokens` and `layout_analysis`
always yield byte-identical output. -/
theorem C8_pipeline_deterministic (sd₁ sd₂ : ScrapedData)
    (dt₁ dt₂ : DesignTokens) (la₁ la₂ : LayoutAnalysis)
    (hsd : sd₁ = sd₂) (hdt : dt₁ = dt₂) (hla : la₁ = la₂) :
    module_generate_enhanced_html sd₁ dt₁ la₁ =
      module_generate_enhanced_html sd₂ dt₂ la₂ := by
  rw [hsd, hdt, hla]

/-- Witness for C8 at the sample inputs. -/
theorem C8_pipeline_deterministic_witness :
    module_generate_enhanced_html sampleScraped sampleTokens sampleLayout =
      module_generate_enhanced_html sampleScraped sampleTokens sampleLayout :=
  C8_pipeline_deterministic sampleScraped sampleScraped sampleTokens
    sampleTokens sampleLayout sampleLayout rfl rfl rfl

set_option maxRecDepth 4096 in
/-- C9: the secondary color bucket of `intelligent_color_extraction` is empty
for every input (no code path appends to it), and the `--color-secondary` CSS
variable emitted by `_generate_css_variables` is the hard-coded `#6c757d` for
every design-token set. -/
theorem C9_secondary_hardcoded :
    (∀ cs : List StyleRecord, (intelligent_color_extraction cs).secondary = []) ∧
    (∀ dt : DesignTokens,
      ("--color-secondary: #6c757d;").data <:+:
        (generate_css_variables dt).data) := by
  constructor
  · intro cs
    show bucketGet (intelligent_color_extraction cs) Bucket.secondary = []
    unfold intelligent_color_extraction
    rw [bucketGet_foldl]
    have hfilter :
        (topColors cs).filter
          (fun cu => classifyOne cu.1 cu.2 = Bucket.secondary) = [] := by
      rw [List.filter_eq_nil_iff]
      intro a ha hdec
      exact classifyOne_ne_secondary a.1 a.2 (of_decide_eq_true hdec)
    rw [hfilter]
    rfl
  · intro dt
    unfold generate_css_variables
    dsimp only
    simp only [String.data_append]
    apply isInfix_append_right
    apply isInfix_append_right
    apply isInfix_append_right
    apply isInfix_append_right
    apply isInfix_append_right
    apply isInfix_append_right
    apply isInfix_append_left
    decide

/-- C10: a main_content component is created exactly when the snapshot's main
text is a non-empty string; with empty or missing main text no main_content
component is emitted, regardless of the headings and paragraphs lists. -/
theorem C10_main_content_condition (sd : ScrapedData) :
    (extract_content_sections sd ≠ [] ↔ sd.text_content.main ≠ "") ∧
    ((extract_content_sections sd).map (fun c => c.type) =
      if sd.text_content.main = "" then [] else [ComponentType.main_content]) ∧
    (sd.text_content.main = "" → extract_content_sections sd = []) := by
  unfold extract_content_sections
  by_cases hmain : sd.text_content.main = "" <;> simp [hmain]

/-- Witness for C10: the sample snapshot has empty main text but non-empty
headings and paragraphs lists, and no main_content component is produced. -/
theorem C10_main_content_condition_witness :
    extract_content_sections sampleScraped = [] :=
  (C10_main_content_condition sampleScraped).2.2 rfl
